import Mathlib

/-!
Shallow embedding of the DevO repository-stack detector and containerization
synthesizer, translated from `utils.py` (backup `utils_20250716_072502.py`),
`templates.py` and `repo_containerizer.py`.  Python dictionaries are modelled
as insertion-ordered association lists, Python sets as first-occurrence
deduplicated lists (Python set iteration order is unspecified, so theorems
below only state order-insensitive facts about set-derived data), and the
regular-expression scans of the source are hand-compiled into character-list
matchers with the same leftmost-first, non-overlapping semantics that
`re.findall` has on those concrete patterns.
-/

set_option maxRecDepth 100000

namespace DevO

/-- ASCII whitespace recognised by Python's default `str.strip`, `str.split`
and the regex class `\s`: space, tab, newline, carriage return, vertical tab,
form feed. -/
def isPySpace (c : Char) : Bool :=
  c = ' ' || c = '\t' || c = '\n' || c = '\r' || c = Char.ofNat 11 || c = Char.ofNat 12

/-- Python `str.strip()` (ASCII fragment). -/
def pyStrip (s : String) : String :=
  String.mk (((s.toList.dropWhile isPySpace).reverse.dropWhile isPySpace).reverse)

/-- Exact character-list prefix test. -/
def hasPrefixChars : List Char → List Char → Bool
  | [], _ => true
  | _ :: _, [] => false
  | n :: ns, h :: hs => n = h && hasPrefixChars ns hs

/-- Character-list infix (substring) test. -/
def infixChars (needle : List Char) : List Char → Bool
  | [] => needle.isEmpty
  | h :: hs => hasPrefixChars needle (h :: hs) || infixChars needle hs

/-- Python's `needle in hay` substring test on strings. -/
def strContains (hay needle : String) : Bool := infixChars needle.toList hay.toList

/-- Python `str.lower()` (ASCII fragment), implemented over the character
list so that it reduces inside the kernel. -/
def pyLower (s : String) : String := String.mk (s.toList.map Char.toLower)

/-- Python `str.upper()` (ASCII fragment). -/
def pyUpper (s : String) : String := String.mk (s.toList.map Char.toUpper)

/-- First-occurrence deduplication (`seen` accumulates already-kept items).
Models building a Python `set` and iterating it; Python's iteration order is
unspecified, this embedding fixes first-occurrence order. -/
def dedupAux : List String → List String → List String
  | [], _ => []
  | x :: xs, seen => if x ∈ seen then dedupAux xs seen else x :: dedupAux xs (x :: seen)

/-- Models `list(set(l))` / set iteration, in first-occurrence order. -/
def dedupFirst (l : List String) : List String := dedupAux l []

/-- Python `max(xs, key=score)` over `x :: xs`: keeps the earliest element of
maximal score (Python's `max` only replaces the current best on a strictly
greater key). -/
def argmaxBy {α : Type} (score : α → Nat) (x : α) (xs : List α) : α :=
  xs.foldl (fun b y => if score y > score b then y else b) x

/-! ## FileClassifier: `detect_language_from_files` (utils.py lines 12-56) -/

/-- The fixed extension → language table of `detect_language_from_files`. -/
def language_extensions : List (String × String) :=
  [(".py", "Python"), (".js", "JavaScript"), (".ts", "TypeScript"),
   (".jsx", "JavaScript"), (".tsx", "TypeScript"), (".java", "Java"),
   (".kt", "Kotlin"), (".go", "Go"), (".rs", "Rust"), (".cpp", "C++"),
   (".c", "C"), (".cs", "C#"), (".php", "PHP"), (".rb", "Ruby"),
   (".swift", "Swift"), (".dart", "Dart"), (".scala", "Scala"),
   (".clj", "Clojure"), (".r", "R"), (".sh", "Shell"), (".yml", "YAML"),
   (".yaml", "YAML"), (".json", "JSON"), (".xml", "XML"), (".html", "HTML"),
   (".css", "CSS"), (".scss", "SCSS"), (".sass", "SASS"), (".less", "LESS"),
   (".sql", "SQL"), (".dockerfile", "Dockerfile")]

/-- Python `os.path.splitext(file)[1]` (posix separator): the extension
starting at the last dot of the basename, empty when the basename has no dot
or only leading dots before it. -/
def splitextExt (file : String) : String :=
  let basename := (file.toList.reverse.takeWhile (fun c => c ≠ '/')).reverse
  let revb := basename.reverse
  let extRev := revb.takeWhile (fun c => c ≠ '.')
  if extRev.length = revb.length then ""
  else
    let pre := basename.take (basename.length - extRev.length - 1)
    if pre.any (fun c => c ≠ '.') then String.mk ('.' :: extRev.reverse) else ""

/-- Increment of `language_counts[lang] = language_counts.get(lang, 0) + 1` on
an insertion-ordered association list (Python dict semantics). -/
def bumpCount (counts : List (String × Nat)) (lang : String) : List (String × Nat) :=
  if (counts.lookup lang).isSome then
    counts.map (fun kv => if kv.1 = lang then (kv.1, kv.2 + 1) else kv)
  else counts ++ [(lang, 1)]

/-- `detect_language_from_files`: bucket files by (lower-cased) extension into
a language histogram; unknown extensions are ignored. -/
def detect_language_from_files (files : List String) : List (String × Nat) :=
  files.foldl (fun counts file =>
    match language_extensions.lookup (pyLower (splitextExt file)) with
    | some lang => bumpCount counts lang
    | none => counts) []

/-- The `primary_language` computation of `RepoContainerizer.analyze_with_llm`
(repo_containerizer.py line 223):
`max(language_counts, key=language_counts.get) if language_counts else "unknown"`.
Python's `max` over a dict iterates keys in insertion order and keeps the
first key of maximal count. -/
def primary_language (files : List String) : String :=
  match detect_language_from_files files with
  | [] => "unknown"
  | kv :: rest => (argmaxBy Prod.snd kv rest).1

/-! ## `detect_package_manager` (utils.py lines 112-135) -/

/-- The fixed filename → package-manager table of `detect_package_manager`. -/
def package_managers : List (String × String) :=
  [("package.json", "npm"), ("package-lock.json", "npm"), ("yarn.lock", "yarn"),
   ("pnpm-lock.yaml", "pnpm"), ("requirements.txt", "pip"), ("Pipfile", "pipenv"),
   ("pyproject.toml", "pip"), ("poetry.lock", "poetry"), ("pom.xml", "maven"),
   ("build.gradle", "gradle"), ("Cargo.toml", "cargo"), ("go.mod", "go"),
   ("composer.json", "composer"), ("Gemfile", "bundle")]

/-- `detect_package_manager`: iterate the INPUT file list and return the
table entry of the first file present in the table, else "unknown". -/
def detect_package_manager (files : List String) : String :=
  (files.findSome? (fun f => package_managers.lookup f)).getD "unknown"

/-! ## `detect_framework_from_files` (utils.py lines 58-110) -/

/-- Manifest filename → framework-name substrings sniffed in its content. -/
def framework_indicators : List (String × List String) :=
  [("package.json", ["react", "next", "express", "vue", "angular", "gatsby", "nuxt"]),
   ("requirements.txt", ["django", "flask", "fastapi", "tornado", "bottle"]),
   ("Pipfile", ["django", "flask", "fastapi", "tornado", "bottle"]),
   ("pyproject.toml", ["django", "flask", "fastapi", "tornado", "bottle"]),
   ("pom.xml", ["spring", "struts", "wicket"]),
   ("build.gradle", ["spring", "struts", "wicket"]),
   ("Cargo.toml", ["actix", "rocket", "warp"]),
   ("go.mod", ["gin", "echo", "fiber", "gorilla"]),
   ("composer.json", ["laravel", "symfony", "codeigniter"]),
   ("Gemfile", ["rails", "sinatra", "hanami"])]

/-- Marker filename → framework table (`framework_files` in the source). -/
def framework_files : List (String × String) :=
  [("manage.py", "django"), ("app.py", "flask"), ("main.py", "fastapi"),
   ("server.js", "express"), ("index.js", "express"), ("next.config.js", "next"),
   ("gatsby-config.js", "gatsby"), ("nuxt.config.js", "nuxt"),
   ("angular.json", "angular"), ("vue.config.js", "vue"),
   ("Application.java", "spring"), ("main.go", "gin"), ("artisan", "laravel"),
   ("config/application.rb", "rails")]

/-- The `detected_frameworks` list of the source: content-sniffing hits (in
manifest-map order, then indicator-list order) followed by marker-file hits
(in file-list order). -/
def detected_frameworks (files : List String) (file_contents : List (String × String)) :
    List String :=
  (file_contents.flatMap (fun fc =>
    match framework_indicators.lookup fc.1 with
    | some fws => fws.filter (fun fw => strContains (pyLower fc.2) fw)
    | none => [])) ++
  files.filterMap (fun f => framework_files.lookup f)

/-- The source's `max(set(detected), key=detected.count)` over a candidate
pool, and its `return 'generic'` when the pool is empty.  Python's set
iteration order (hence the winner of a count tie) is unspecified; this
embedding fixes first-occurrence order. -/
def mostFrequent (d : List String) : String :=
  match dedupFirst d with
  | [] => "generic"
  | x :: xs => argmaxBy (fun fw => d.count fw) x xs

/-- `detect_framework_from_files`: return the most frequent detected
candidate when any was detected, else "generic". -/
def detect_framework_from_files (files : List String)
    (file_contents : List (String × String)) : String :=
  mostFrequent (detected_frameworks files file_contents)

/-! ## `detect_database_requirements` (utils.py lines 137-158) -/

/-- Service → keyword-substring table of `detect_database_requirements`. -/
def database_indicators : List (String × List String) :=
  [("postgresql", ["postgresql", "postgres", "psycopg2", "pg_", "postgresql://"]),
   ("mysql", ["mysql", "pymysql", "mysql2", "mysql://"]),
   ("sqlite", ["sqlite", "sqlite3", "sqlite://"]),
   ("mongodb", ["mongodb", "pymongo", "mongoose", "mongodb://"]),
   ("redis", ["redis", "redis-py", "ioredis", "redis://"]),
   ("elasticsearch", ["elasticsearch", "elastic", "elasticsearch://"]),
   ("cassandra", ["cassandra", "datastax", "cassandra://"])]

/-- `detect_database_requirements`: for each content (map order) and each
service (table order), record the service once if any keyword occurs in the
lower-cased content. -/
def detect_database_requirements (file_contents : List (String × String)) : List String :=
  file_contents.foldl (fun dbs fc =>
    let cl := pyLower fc.2
    database_indicators.foldl (fun dbs di =>
      if di.2.any (fun i => strContains cl i) && !(dbs.contains di.1)
      then dbs ++ [di.1] else dbs) dbs) []

/-! ## `detect_port_from_files` (utils.py lines 160-199)

The seven regular expressions of `port_patterns` are hand-compiled to
character-list matchers.  Each matcher implements "does the pattern match
starting exactly here, and what is its `(\d+)` group": on these patterns the
character classes are pairwise disjoint, so Python's backtracking search is
equivalent to the greedy scan implemented here.  `re.IGNORECASE` is passed in
the source, hence literals are matched case-insensitively.  Only the first
match of a pattern is consumed by the source (`matches[0]`), so matchers are
combined with a leftmost-first scan. -/

/-- Framework → default-port table.  It is defined by the source (utils.py
lines 162-175) but never consulted: `detect_port_from_files` takes no
framework argument and falls back to the constant 8080. -/
def default_ports : List (String × Nat) :=
  [("django", 8000), ("flask", 5000), ("fastapi", 8000), ("express", 3000),
   ("next", 3000), ("react", 3000), ("vue", 8080), ("angular", 4200),
   ("spring", 8080), ("gin", 8080), ("laravel", 8000), ("rails", 3000)]

/-- Case-insensitive literal prefix match (the pattern literal is given in
lower case); returns the characters after the literal. -/
def stripPrefixCI : List Char → List Char → Option (List Char)
  | [], cs => some cs
  | _ :: _, [] => none
  | p :: ps, c :: cs => if c.toLower = p then stripPrefixCI ps cs else none

/-- Numeric value of a `(\d+)` group (Python `int(...)` on a digit string). -/
def digitsToNat (ds : List Char) : Nat :=
  ds.foldl (fun a c => a * 10 + (c.toNat - 48)) 0

/-- The common regex suffix `[:\s]*[=]?\s*(\d+)` of four port patterns. -/
def matchPortSuffix (cs : List Char) : Option Nat :=
  let r1 := cs.dropWhile (fun c => c = ':' || isPySpace c)
  let r2 := match r1 with
    | '=' :: t => t
    | _ => r1
  let r3 := r2.dropWhile isPySpace
  let ds := r3.takeWhile Char.isDigit
  if ds.isEmpty then none else some (digitsToNat ds)

/-- Pattern `port[:\s]*[=]?\s*(\d+)` (and, identically under `re.IGNORECASE`,
the second pattern `PORT[:\s]*[=]?\s*(\d+)`). -/
def matchPortAt (cs : List Char) : Option Nat :=
  (stripPrefixCI "port".toList cs).bind matchPortSuffix

/-- Pattern `listen[:\s]*[=]?\s*(\d+)`. -/
def matchListenAt (cs : List Char) : Option Nat :=
  (stripPrefixCI "listen".toList cs).bind matchPortSuffix

/-- Pattern `server\.port[:\s]*[=]?\s*(\d+)`. -/
def matchServerDotPortAt (cs : List Char) : Option Nat :=
  (stripPrefixCI "server.port".toList cs).bind matchPortSuffix

/-- Pattern `app\.listen\s*\(\s*(\d+)`. -/
def matchAppListenAt (cs : List Char) : Option Nat :=
  (stripPrefixCI "app.listen".toList cs).bind (fun r =>
    match r.dropWhile isPySpace with
    | '(' :: t =>
      let ds := (t.dropWhile isPySpace).takeWhile Char.isDigit
      if ds.isEmpty then none else some (digitsToNat ds)
    | _ => none)

/-- Pattern `\.run\s*\(\s*port\s*=\s*(\d+)`. -/
def matchRunPortAt (cs : List Char) : Option Nat :=
  (stripPrefixCI ".run".toList cs).bind (fun r =>
    match r.dropWhile isPySpace with
    | '(' :: t =>
      (stripPrefixCI "port".toList (t.dropWhile isPySpace)).bind (fun r2 =>
        match r2.dropWhile isPySpace with
        | '=' :: t2 =>
          let ds := (t2.dropWhile isPySpace).takeWhile Char.isDigit
          if ds.isEmpty then none else some (digitsToNat ds)
        | _ => none)
    | _ => none)

/-- Pattern `server_port[:\s]*[=]?\s*(\d+)`. -/
def matchServerPortAt (cs : List Char) : Option Nat :=
  (stripPrefixCI "server_port".toList cs).bind matchPortSuffix

/-- Leftmost match of a single pattern: the group of the earliest position
where the pattern matches (what `re.findall(...)[0]` yields). -/
def scanFirst (matchAt : List Char → Option Nat) : List Char → Option Nat
  | [] => none
  | c :: cs =>
    match matchAt (c :: cs) with
    | some n => some n
    | none => scanFirst matchAt cs

/-- The `port_patterns` list, in source order. -/
def port_patterns : List (List Char → Option Nat) :=
  [matchPortAt, matchPortAt, matchListenAt, matchServerDotPortAt,
   matchAppListenAt, matchRunPortAt, matchServerPortAt]

/-- One iteration of the source's pattern loop over a single content string:
the first pattern (in order) whose first match is a number in 1000-65535
yields that number; a pattern whose first match is out of range yields
nothing and the loop moves to the next pattern. -/
def findPortInContent (content : String) : Option Nat :=
  port_patterns.findSome? (fun m =>
    match scanFirst m content.toList with
    | some n => if 1000 ≤ n ∧ n ≤ 65535 then some n else none
    | none => none)

/-- `detect_port_from_files`: scan contents in map order; return the first
in-range hit, else the constant 8080 (the `default_ports` table is dead). -/
def detect_port_from_files (file_contents : List (String × String)) : Nat :=
  ((file_contents.map Prod.snd).findSome? findPortInContent).getD 8080

/-! ## `detect_environment_variables` (utils.py lines 201-267)

The seven `env_patterns` are hand-compiled like the port patterns.  Under
`re.IGNORECASE` the group class `[A-Z_]+` matches upper- and lower-case
letters and underscores; every captured group is upper-cased and added to a
set.  A matcher returns the captured group and the characters after the whole
match, so the generic scanner reproduces `re.findall`'s non-overlapping
left-to-right semantics. -/

/-- A quote character, for the regex class `['"]`. -/
def isQuote (c : Char) : Bool := c = Char.ofNat 39 || c = '"'

/-- A character of the group class `[A-Z_]` under `re.IGNORECASE`. -/
def isVarChar (c : Char) : Bool := c.isAlpha || c = '_'

/-- Matcher for the patterns of shape `LIT['"]([A-Z_]+)['"]` (used with the
literals `os.environ.get(`, `System.getenv(`, `std::env::var(`, `env(`). -/
def matchEnvQuoted (lit : String) (cs : List Char) : Option (String × List Char) :=
  (stripPrefixCI lit.toList cs).bind (fun r =>
    match r with
    | q :: t =>
      if isQuote q then
        let g := t.takeWhile isVarChar
        if g.isEmpty then none
        else match t.dropWhile isVarChar with
          | q2 :: t2 => if isQuote q2 then some (String.mk g, t2) else none
          | [] => none
      else none
    | [] => none)

/-- Pattern `process\.env\.([A-Z_]+)`. -/
def matchProcessEnv (cs : List Char) : Option (String × List Char) :=
  (stripPrefixCI "process.env.".toList cs).bind (fun r =>
    let g := r.takeWhile isVarChar
    if g.isEmpty then none else some (String.mk g, r.dropWhile isVarChar))

/-- Pattern `\$\{([A-Z_]+)\}`. -/
def matchDollarBrace (cs : List Char) : Option (String × List Char) :=
  match cs with
  | c1 :: c2 :: t =>
    if c1 = '$' && c2 = Char.ofNat 123 then
      let g := t.takeWhile isVarChar
      if g.isEmpty then none
      else match t.dropWhile isVarChar with
        | c3 :: t2 => if c3 = Char.ofNat 125 then some (String.mk g, t2) else none
        | [] => none
    else none
  | _ => none

/-- Pattern `\$([A-Z_]+)`. -/
def matchDollar (cs : List Char) : Option (String × List Char) :=
  match cs with
  | c1 :: t =>
    if c1 = '$' then
      let g := t.takeWhile isVarChar
      if g.isEmpty then none else some (String.mk g, t.dropWhile isVarChar)
    else none
  | [] => none

/-- Non-overlapping left-to-right collection of all matches of one pattern
(`re.findall`): on a match continue after its end, otherwise advance one
character.  Every pattern has positive width, so `fuel := length` suffices. -/
def findAllAux (m : List Char → Option (String × List Char)) :
    Nat → List Char → List String
  | 0, _ => []
  | _ + 1, [] => []
  | fuel + 1, c :: cs =>
    match m (c :: cs) with
    | some (g, rest) => g :: findAllAux m fuel rest
    | none => findAllAux m fuel cs

/-- All matches of one pattern in a string. -/
def findAll (m : List Char → Option (String × List Char)) (s : String) : List String :=
  findAllAux m s.toList.length s.toList

/-- The `env_patterns` list, in source order. -/
def env_patterns : List (List Char → Option (String × List Char)) :=
  [matchEnvQuoted "os.environ.get(", matchProcessEnv,
   matchEnvQuoted "system.getenv(", matchEnvQuoted "std::env::var(",
   matchDollarBrace, matchDollar, matchEnvQuoted "env("]

/-- The `detected_vars` set: every group of every pattern in every content,
upper-cased and deduplicated. -/
def detected_vars (file_contents : List (String × String)) : List String :=
  dedupFirst ((file_contents.map Prod.snd).flatMap (fun content =>
    env_patterns.flatMap (fun m => (findAll m content).map pyUpper)))

/-- The fixed variable → description table (`env_descriptions`). -/
def env_descriptions : List (String × String) :=
  [("DATABASE_URL", "Database connection URL"), ("DB_HOST", "Database host"),
   ("DB_PORT", "Database port"), ("DB_NAME", "Database name"),
   ("DB_USER", "Database username"), ("DB_PASSWORD", "Database password"),
   ("REDIS_URL", "Redis connection URL"), ("SECRET_KEY", "Secret key for encryption"),
   ("JWT_SECRET", "JWT token secret"), ("API_KEY", "API key for external services"),
   ("PORT", "Application port"), ("HOST", "Application host"),
   ("NODE_ENV", "Node.js environment"), ("FLASK_ENV", "Flask environment"),
   ("DJANGO_SETTINGS_MODULE", "Django settings module"), ("DEBUG", "Debug mode flag"),
   ("LOG_LEVEL", "Logging level"), ("CORS_ORIGIN", "CORS allowed origins"),
   ("MAIL_SERVER", "Email server"), ("MAIL_PORT", "Email server port"),
   ("MAIL_USERNAME", "Email username"), ("MAIL_PASSWORD", "Email password"),
   ("AWS_ACCESS_KEY_ID", "AWS access key"), ("AWS_SECRET_ACCESS_KEY", "AWS secret key"),
   ("AWS_REGION", "AWS region"),
   ("GOOGLE_APPLICATION_CREDENTIALS", "Google Cloud credentials"),
   ("MONGODB_URI", "MongoDB connection URI"), ("ELASTICSEARCH_URL", "Elasticsearch URL")]

/-- The predicate of the source's `DATABASE_URL` guard: a detected variable
that starts with `DB_` or contains `DATABASE`. -/
def isDbVar (v : String) : Bool := hasPrefixChars "DB_".toList v.toList || strContains v "DATABASE"

/-- The first loop of the `env_vars` assembly: each detected variable with
its description from the table, or the generic fallback description. -/
def envBase (detected : List String) : List (String × String) :=
  detected.map (fun v =>
    (v, (env_descriptions.lookup v).getD ("Environment variable: " ++ v)))

/-- Then `DATABASE_URL` is added unless some detected variable starts with
`DB_` or contains `DATABASE`. -/
def envWithDb (detected : List String) : List (String × String) :=
  if detected.any isDbVar then envBase detected
  else envBase detected ++ [("DATABASE_URL", "Database connection URL")]

/-- Assembly of the `env_vars` dict from the detected-variable set:
descriptions, then the `DATABASE_URL` default, then `PORT` unless it was
detected. -/
def buildEnvVars (detected : List String) : List (String × String) :=
  if "PORT" ∈ detected then envWithDb detected
  else envWithDb detected ++ [("PORT", "Application port")]

/-- `detect_environment_variables`. -/
def detect_environment_variables (file_contents : List (String × String)) :
    List (String × String) :=
  buildEnvVars (detected_vars file_contents)

/-! ## A JSON value model and parser for `json.loads`

`detect_build_tools` and `extract_dependencies` call `json.loads` on
`package.json`.  The parser below implements the JSON grammar (strict mode:
unknown escapes and raw control characters inside strings are rejected, as
`json.loads` rejects them); a failed parse models the `json.JSONDecodeError`
the library raises.  Numbers are kept as raw text because the source never
uses a numeric value.  Duplicate object keys (where `json.loads` keeps the
last value) are kept as-is in the field list; the code under verification
only reads key lists and key membership of well-formed manifests. -/

inductive Json where
  | jnull : Json
  | jbool : Bool → Json
  | jnum : String → Json
  | jstr : String → Json
  | jarr : List Json → Json
  | jobj : List (String × Json) → Json

/-- JSON insignificant whitespace (also what `json.loads` skips). -/
def isJsonWs (c : Char) : Bool := c = ' ' || c = '\t' || c = '\n' || c = '\r'

/-- Skip insignificant whitespace. -/
def skipJsonWs (cs : List Char) : List Char := cs.dropWhile isJsonWs

/-- Value of a hex digit, if any. -/
def hexVal (c : Char) : Option Nat :=
  if c.isDigit then some (c.toNat - 48)
  else if 'a' ≤ c && c ≤ 'f' then some (c.toNat - 87)
  else if 'A' ≤ c && c ≤ 'F' then some (c.toNat - 70)
  else none

/-- Body of a JSON string, after the opening quote: `acc` holds the decoded
characters in reverse.  Rejects unknown escapes and raw control characters;
a `\uXXXX` escape outside the valid scalar range decodes through
`Char.ofNat`'s total fallback. -/
def parseJStringAux : List Char → List Char → Option (String × List Char)
  | _, [] => none
  | acc, c :: cs =>
    if c = '"' then some (String.mk acc.reverse, cs)
    else if c = '\\' then
      match cs with
      | [] => none
      | e :: cs2 =>
        if e = '"' then parseJStringAux ('"' :: acc) cs2
        else if e = '\\' then parseJStringAux ('\\' :: acc) cs2
        else if e = '/' then parseJStringAux ('/' :: acc) cs2
        else if e = 'b' then parseJStringAux (Char.ofNat 8 :: acc) cs2
        else if e = 'f' then parseJStringAux (Char.ofNat 12 :: acc) cs2
        else if e = 'n' then parseJStringAux ('\n' :: acc) cs2
        else if e = 'r' then parseJStringAux ('\r' :: acc) cs2
        else if e = 't' then parseJStringAux ('\t' :: acc) cs2
        else if e = 'u' then
          match cs2 with
          | h1 :: h2 :: h3 :: h4 :: cs3 =>
            match hexVal h1, hexVal h2, hexVal h3, hexVal h4 with
            | some v1, some v2, some v3, some v4 =>
              parseJStringAux (Char.ofNat (((v1 * 16 + v2) * 16 + v3) * 16 + v4) :: acc) cs3
            | _, _, _, _ => none
          | _ => none
        else none
    else if c.toNat < 32 then none
    else parseJStringAux (c :: acc) cs

/-- A JSON string from just after its opening quote. -/
def parseJString (cs : List Char) : Option (String × List Char) :=
  parseJStringAux [] cs

/-- A JSON number (raw text): `-? (0 | [1-9][0-9]*) (\.[0-9]+)? ([eE][+-]?[0-9]+)?`. -/
def parseNumChars (cs : List Char) : Option (String × List Char) :=
  let (sign, r1) := match cs with
    | '-' :: t => (['-'], t)
    | _ => (([] : List Char), cs)
  let intDigits := r1.takeWhile Char.isDigit
  if intDigits.isEmpty then none
  else if intDigits.length > 1 && intDigits.headD ' ' = '0' then none
  else
    let r2 := r1.dropWhile Char.isDigit
    let (frac, r3) := match r2 with
      | '.' :: t =>
        let fd := t.takeWhile Char.isDigit
        if fd.isEmpty then (none, r2) else (some ('.' :: fd), t.dropWhile Char.isDigit)
      | _ => (none, r2)
    match frac, r3 with
    | none, '.' :: _ => none
    | _, _ =>
      let fracCs := frac.getD []
      let (expCs, r4) := match r3 with
        | e :: t =>
          if e = 'e' || e = 'E' then
            let (s2, t2) := match t with
              | '+' :: u => (['+'], u)
              | '-' :: u => (['-'], u)
              | _ => (([] : List Char), t)
            let ed := t2.takeWhile Char.isDigit
            if ed.isEmpty then (none, r3) else (some (e :: s2 ++ ed), t2.dropWhile Char.isDigit)
          else (none, r3)
        | [] => (none, r3)
      match expCs, r4 with
      | none, e :: _ =>
        if e = 'e' || e = 'E' then none
        else some (String.mk (sign ++ intDigits ++ fracCs), r4)
      | _, _ => some (String.mk (sign ++ intDigits ++ fracCs ++ expCs.getD []), r4)

mutual

/-- A JSON value (fuel-indexed; nesting depth is bounded by input length). -/
def parseValue : Nat → List Char → Option (Json × List Char)
  | 0, _ => none
  | fuel + 1, cs =>
    let cs1 := skipJsonWs cs
    match cs1 with
    | [] => none
    | c :: rest =>
      if c = '"' then (parseJString rest).map (fun p => (Json.jstr p.1, p.2))
      else if c = '[' then
        match skipJsonWs rest with
        | ']' :: r => some (Json.jarr [], r)
        | r => (parseElems fuel r).map (fun p => (Json.jarr p.1, p.2))
      else if c = Char.ofNat 123 then
        match skipJsonWs rest with
        | c2 :: r =>
          if c2 = Char.ofNat 125 then some (Json.jobj [], r)
          else (parseFields fuel (c2 :: r)).map (fun p => (Json.jobj p.1, p.2))
        | [] => none
      else if hasPrefixChars "true".toList cs1 then some (Json.jbool true, cs1.drop 4)
      else if hasPrefixChars "false".toList cs1 then some (Json.jbool false, cs1.drop 5)
      else if hasPrefixChars "null".toList cs1 then some (Json.jnull, cs1.drop 4)
      else (parseNumChars cs1).map (fun p => (Json.jnum p.1, p.2))

/-- Comma-separated array elements, expecting a value first. -/
def parseElems : Nat → List Char → Option (List Json × List Char)
  | 0, _ => none
  | fuel + 1, cs =>
    (parseValue fuel cs).bind (fun p =>
      match skipJsonWs p.2 with
      | ',' :: r2 => (parseElems fuel r2).map (fun q => (p.1 :: q.1, q.2))
      | ']' :: r2 => some ([p.1], r2)
      | _ => none)

/-- Comma-separated object members, expecting a `"key": value` pair first. -/
def parseFields : Nat → List Char → Option (List (String × Json) × List Char)
  | 0, _ => none
  | fuel + 1, cs =>
    match skipJsonWs cs with
    | '"' :: r =>
      (parseJString r).bind (fun pk =>
        match skipJsonWs pk.2 with
        | ':' :: r2 =>
          (parseValue fuel r2).bind (fun pv =>
            match skipJsonWs pv.2 with
            | ',' :: r4 => (parseFields fuel r4).map (fun q => ((pk.1, pv.1) :: q.1, q.2))
            | c :: r4 =>
              if c = Char.ofNat 125 then some ([(pk.1, pv.1)], r4) else none
            | [] => none)
        | _ => none)
    | _ => none

end

/-- `json.loads`: parse one JSON document, requiring only whitespace after
it; `none` models a raised `json.JSONDecodeError`. -/
def json_loads (s : String) : Option Json :=
  (parseValue (s.toList.length + 1) s.toList).bind (fun p =>
    if (skipJsonWs p.2).isEmpty then some p.1 else none)

/-! ## `detect_build_tools` (utils.py lines 269-321) -/

/-- Marker filename → build-tool table (`build_indicators`). -/
def build_indicators : List (String × String) :=
  [("webpack.config.js", "webpack"), ("rollup.config.js", "rollup"),
   ("vite.config.js", "vite"), ("gulpfile.js", "gulp"), ("Gruntfile.js", "grunt"),
   ("tsconfig.json", "typescript"), ("babel.config.js", "babel"),
   (".babelrc", "babel"), ("Makefile", "make"), ("CMakeLists.txt", "cmake"),
   ("build.gradle", "gradle"), ("pom.xml", "maven"), ("Cargo.toml", "cargo"),
   ("go.mod", "go"), ("setup.py", "python setuptools"),
   ("pyproject.toml", "python build"), ("tox.ini", "tox"), ("Dockerfile", "docker"),
   ("docker-compose.yml", "docker-compose"), ("docker-compose.yaml", "docker-compose"),
   (".github/workflows", "github-actions"), ("Jenkinsfile", "jenkins"),
   (".travis.yml", "travis-ci"), (".circleci/config.yml", "circleci")]

/-- `detect_build_tools`: marker-file hits plus npm script hits read from a
parsed `package.json`, deduplicated (`list(set(...))`; Python iteration order
of that set is unspecified, first-occurrence order here).  A malformed
`package.json` (parse failure) contributes nothing, like the source's caught
`JSONDecodeError`.  A well-formed `package.json` whose top level or whose
`scripts` value is not an object makes the Python code raise an uncaught
`AttributeError` / perform a substring test; those inputs are modelled as
contributing nothing and are outside every claim. -/
def detect_build_tools (files : List String) (file_contents : List (String × String)) :
    List String :=
  let tools := files.filterMap (fun f => build_indicators.lookup f)
  let npmTools :=
    match file_contents.lookup "package.json" with
    | some content =>
      match json_loads content with
      | some (Json.jobj fields) =>
        let scripts := match fields.lookup "scripts" with
          | some (Json.jobj sf) => sf
          | _ => []
        (if (scripts.lookup "build").isSome then ["npm build"] else []) ++
        (if (scripts.lookup "test").isSome then ["npm test"] else []) ++
        (if (scripts.lookup "start").isSome then ["npm start"] else [])
      | _ => []
    | none => []
  dedupFirst (tools ++ npmTools)

/-! ## `extract_dependencies` (utils.py lines 434-477) -/

/-- Character-list version of Python `str.strip()`. -/
def pyStripChars (cs : List Char) : List Char :=
  ((cs.dropWhile isPySpace).reverse.dropWhile isPySpace).reverse

/-- Python `str.split('\n')`: split at every newline, keeping empty pieces. -/
def splitLinesAux : List Char → List Char → List (List Char)
  | acc, [] => [acc.reverse]
  | acc, c :: cs =>
    if c = '\n' then acc.reverse :: splitLinesAux [] cs else splitLinesAux (c :: acc) cs

/-- Python `str.split()` with no argument: split on whitespace runs,
dropping empty pieces. -/
def splitWsAux : List Char → List Char → List (List Char)
  | acc, [] => if acc.isEmpty then [] else [acc.reverse]
  | acc, c :: cs =>
    if isPySpace c then
      if acc.isEmpty then splitWsAux [] cs else acc.reverse :: splitWsAux [] cs
    else splitWsAux (c :: acc) cs

/-- Keys of an object-valued field (`package_data.get(key, {}).keys()`); a
missing field yields no keys.  A non-object field value makes the Python code
raise and is modelled as no keys (outside every claim). -/
def jsonObjKeysOf (fields : List (String × Json)) (key : String) : List String :=
  match fields.lookup key with
  | some (Json.jobj d) => d.map Prod.fst
  | _ => []

/-- Matcher for the regex `<artifactId>(.*?)</artifactId>`: non-greedy, and
`.` does not match a newline, so the capture runs to the first closing tag
and fails if a newline intervenes. -/
def captureToClose : List Char → Option (List Char × List Char)
  | [] => none
  | c :: cs =>
    if hasPrefixChars "</artifactId>".toList (c :: cs) then some ([], (c :: cs).drop 13)
    else if c = '\n' then none
    else (captureToClose cs).map (fun p => (c :: p.1, p.2))

/-- Match of the artifactId pattern starting exactly here (case-sensitive:
no flag is passed for this pattern in the source). -/
def matchArtifactAt (cs : List Char) : Option (String × List Char) :=
  if hasPrefixChars "<artifactId>".toList cs then
    (captureToClose (cs.drop 12)).map (fun p => (String.mk p.1, p.2))
  else none

/-- The version-specifier characters of `re.split(r'[>=<~!]', ...)`. -/
def isSpecChar (c : Char) : Bool :=
  c = '>' || c = '=' || c = '<' || c = '~' || c = '!'

/-- `extract_dependencies`: union of the four ecosystem extractions
(`package.json` dependency keys, `requirements.txt` names, `pom.xml`
artifactIds, `go.mod` module paths), deduplicated (`list(set(...))`,
first-occurrence order here). -/
def extract_dependencies (file_contents : List (String × String)) : List String :=
  let nodeDeps :=
    match file_contents.lookup "package.json" with
    | some content =>
      match json_loads content with
      | some (Json.jobj fields) =>
        jsonObjKeysOf fields "dependencies" ++ jsonObjKeysOf fields "devDependencies"
      | _ => []
    | none => []
  let pyDeps :=
    match file_contents.lookup "requirements.txt" with
    | some content =>
      (splitLinesAux [] (pyStripChars content.toList)).filterMap (fun lineCs =>
        if !(pyStripChars lineCs).isEmpty && !hasPrefixChars "#".toList lineCs then
          some (String.mk ((pyStripChars lineCs).takeWhile (fun c => !isSpecChar c)))
        else none)
    | none => []
  let pomDeps :=
    match file_contents.lookup "pom.xml" with
    | some content => findAll matchArtifactAt content
    | none => []
  let goDeps :=
    match file_contents.lookup "go.mod" with
    | some content =>
      (splitLinesAux [] (pyStripChars content.toList)).filterMap (fun lineCs =>
        let stripped := pyStripChars lineCs
        if hasPrefixChars "require".toList stripped then none
        else if lineCs.contains '/' && !hasPrefixChars "//".toList stripped then
          match splitWsAux [] stripped with
          | p1 :: _ :: _ => some (String.mk p1)
          | _ => none
        else none)
    | none => []
  dedupFirst (nodeDeps ++ pyDeps ++ pomDeps ++ goDeps)

/-! ## `generate_health_check_command` (utils.py lines 323-353) -/

/-- The nested language → framework → health-check table, with the port
interpolated as in the source's f-strings. -/
def health_checks (port : Nat) : List (String × List (String × String)) :=
  [("python",
    [("django", "python manage.py check --deploy"),
     ("flask", "curl -f http://localhost:" ++ toString port ++ "/health || exit 1"),
     ("fastapi", "curl -f http://localhost:" ++ toString port ++ "/health || exit 1"),
     ("generic", "curl -f http://localhost:" ++ toString port ++ " || exit 1")]),
   ("javascript",
    [("express", "curl -f http://localhost:" ++ toString port ++ "/health || exit 1"),
     ("next", "curl -f http://localhost:" ++ toString port ++ "/api/health || exit 1"),
     ("react", "curl -f http://localhost:" ++ toString port ++ " || exit 1"),
     ("generic", "curl -f http://localhost:" ++ toString port ++ " || exit 1")]),
   ("java",
    [("spring", "curl -f http://localhost:" ++ toString port ++ "/actuator/health || exit 1"),
     ("generic", "curl -f http://localhost:" ++ toString port ++ "/health || exit 1")]),
   ("go",
    [("gin", "wget --no-verbose --tries=1 --spider http://localhost:" ++ toString port ++ "/health || exit 1"),
     ("generic", "wget --no-verbose --tries=1 --spider http://localhost:" ++ toString port ++ " || exit 1")])]

/-- `generate_health_check_command`. -/
def generate_health_check_command (language framework : String) (port : Nat) : String :=
  let fallback := "curl -f http://localhost:" ++ toString port ++ " || exit 1"
  match (health_checks port).lookup (pyLower language) with
  | some fc => ((fc.lookup (pyLower framework)).orElse (fun _ => fc.lookup "generic")).getD fallback
  | none => fallback

/-! ## `generate_run_commands` (utils.py lines 355-432) -/

/-- Python `dict.update`: existing keys keep their position with the new
value, new keys are appended (all override keys exist in the bases below). -/
def updateAssoc (base overrides : List (String × String)) : List (String × String) :=
  base.map (fun kv => (kv.1, (overrides.lookup kv.1).getD kv.2)) ++
  overrides.filter (fun kv => (base.lookup kv.1).isNone)

/-- The per-language default command table (`commands` in the source). -/
def base_commands_table (package_manager : String) : List (String × List (String × String)) :=
  [("python",
    [("install", "pip install -r requirements.txt"), ("build", "python setup.py build"),
     ("start", "python main.py"), ("test", "python -m pytest")]),
   ("javascript",
    [("install", package_manager ++ " install"), ("build", package_manager ++ " run build"),
     ("start", package_manager ++ " start"), ("test", package_manager ++ " test")]),
   ("java",
    [("install", if package_manager = "maven" then "mvn install" else "gradle build"),
     ("build", if package_manager = "maven" then "mvn package" else "gradle build"),
     ("start", "java -jar target/*.jar"),
     ("test", if package_manager = "maven" then "mvn test" else "gradle test")]),
   ("go",
    [("install", "go mod download"), ("build", "go build -o main ."),
     ("start", "./main"), ("test", "go test ./...")])]

/-- The framework-specific override table (`framework_overrides`). -/
def framework_overrides : List (String × List (String × String)) :=
  [("django", [("start", "python manage.py runserver 0.0.0.0:8000"), ("test", "python manage.py test")]),
   ("flask", [("start", "python app.py"), ("test", "python -m pytest")]),
   ("fastapi", [("start", "uvicorn main:app --host 0.0.0.0 --port 8000"), ("test", "python -m pytest")]),
   ("express", [("start", "node index.js"), ("test", "npm test")]),
   ("next", [("start", "npm run start"), ("build", "npm run build")]),
   ("react", [("start", "npm start"), ("build", "npm run build")]),
   ("spring", [("start", "java -jar target/*.jar"), ("test", "mvn test")]),
   ("gin", [("start", "./main"), ("test", "go test ./...")])]

/-- The placeholder command map used for an unknown language. -/
def placeholder_commands : List (String × String) :=
  [("install", "echo \"No install command available\""),
   ("build", "echo \"No build command available\""),
   ("start", "echo \"No start command available\""),
   ("test", "echo \"No test command available\"")]

/-- `generate_run_commands`: language defaults overridden by the
framework-specific entries. -/
def generate_run_commands (language framework package_manager : String) :
    List (String × String) :=
  let base := ((base_commands_table package_manager).lookup (pyLower language)).getD
    placeholder_commands
  match framework_overrides.lookup (pyLower framework) with
  | some ov => updateAssoc base ov
  | none => base

/-! ## templates.py: Dockerfile and docker-compose template tables -/

/-- `DOCKERFILE_TEMPLATES[python][flask]` from templates.py. -/
def dockerfile_python_flask : String :=
  "FROM python:3.9-slim\n\nWORKDIR /app\n\n# Install system dependencies\nRUN apt-get update && apt-get install -y \\\n    gcc \\\n    && rm -rf /var/lib/apt/lists/*\n\n# Copy requirements and install Python dependencies\nCOPY requirements.txt .\nRUN pip install --no-cache-dir -r requirements.txt\n\n# Copy application code\nCOPY . .\n\n# Create non-root user\nRUN useradd -m -u 1000 appuser && chown -R appuser:appuser /app\nUSER appuser\n\n# Expose port\nEXPOSE 8080\n\n# Health check\nHEALTHCHECK --interval=30s --timeout=10s --start-period=5s --retries=3 \\\n    CMD curl -f http://localhost:8080/health || exit 1\n\n# Run the application\nCMD [\"python\", \"app.py\"]\n"

/-- `DOCKERFILE_TEMPLATES[python][django]` from templates.py. -/
def dockerfile_python_django : String :=
  "FROM python:3.9-slim\n\nWORKDIR /app\n\n# Install system dependencies\nRUN apt-get update && apt-get install -y \\\n    gcc \\\n    postgresql-client \\\n    && rm -rf /var/lib/apt/lists/*\n\n# Copy requirements and install Python dependencies\nCOPY requirements.txt .\nRUN pip install --no-cache-dir -r requirements.txt\n\n# Copy application code\nCOPY . .\n\n# Create non-root user\nRUN useradd -m -u 1000 appuser && chown -R appuser:appuser /app\nUSER appuser\n\n# Collect static files\nRUN python manage.py collectstatic --noinput\n\n# Expose port\nEXPOSE 8080\n\n# Health check\nHEALTHCHECK --interval=30s --timeout=10s --start-period=5s --retries=3 \\\n    CMD curl -f http://localhost:8080/health || exit 1\n\n# Run the application\nCMD [\"python\", \"manage.py\", \"runserver\", \"0.0.0.0:8080\"]\n"

/-- `DOCKERFILE_TEMPLATES[python][generic]` from templates.py. -/
def dockerfile_python_generic : String :=
  "FROM python:3.9-slim\n\nWORKDIR /app\n\n# Install system dependencies\nRUN apt-get update && apt-get install -y \\\n    gcc \\\n    && rm -rf /var/lib/apt/lists/*\n\n# Copy requirements and install Python dependencies\nCOPY requirements.txt .\nRUN pip install --no-cache-dir -r requirements.txt\n\n# Copy application code\nCOPY . .\n\n# Create non-root user\nRUN useradd -m -u 1000 appuser && chown -R appuser:appuser /app\nUSER appuser\n\n# Expose port\nEXPOSE 8080\n\n# Health check\nHEALTHCHECK --interval=30s --timeout=10s --start-period=5s --retries=3 \\\n    CMD python -c \"import requests; requests.get(\x27http://localhost:8080\x27)\" || exit 1\n\n# Run the application\nCMD [\"python\", \"main.py\"]\n"

/-- `DOCKERFILE_TEMPLATES[javascript][express]` from templates.py. -/
def dockerfile_javascript_express : String :=
  "FROM node:18-alpine\n\nWORKDIR /app\n\n# Copy package files\nCOPY package*.json ./\n\n# Install dependencies\nRUN npm ci --only=production\n\n# Copy application code\nCOPY . .\n\n# Create non-root user\nRUN addgroup -g 1000 appuser && adduser -u 1000 -G appuser -s /bin/sh -D appuser\nRUN chown -R appuser:appuser /app\nUSER appuser\n\n# Expose port\nEXPOSE 8080\n\n# Health check\nHEALTHCHECK --interval=30s --timeout=10s --start-period=5s --retries=3 \\\n    CMD curl -f http://localhost:8080/health || exit 1\n\n# Run the application\nCMD [\"node\", \"index.js\"]\n"

/-- `DOCKERFILE_TEMPLATES[javascript][next]` from templates.py. -/
def dockerfile_javascript_next : String :=
  "FROM node:18-alpine AS builder\n\nWORKDIR /app\n\n# Copy package files\nCOPY package*.json ./\n\n# Install dependencies\nRUN npm ci\n\n# Copy application code\nCOPY . .\n\n# Build the application\nRUN npm run build\n\n# Production stage\nFROM node:18-alpine AS runner\n\nWORKDIR /app\n\n# Create non-root user\nRUN addgroup -g 1000 appuser && adduser -u 1000 -G appuser -s /bin/sh -D appuser\n\n# Copy built application\nCOPY --from=builder --chown=appuser:appuser /app/.next ./.next\nCOPY --from=builder --chown=appuser:appuser /app/public ./public\nCOPY --from=builder --chown=appuser:appuser /app/package*.json ./\n\n# Install production dependencies\nRUN npm ci --only=production\n\nUSER appuser\n\n# Expose port\nEXPOSE 8080\n\n# Health check\nHEALTHCHECK --interval=30s --timeout=10s --start-period=5s --retries=3 \\\n    CMD curl -f http://localhost:8080/api/health || exit 1\n\n# Run the application\nCMD [\"npm\", \"start\"]\n"

/-- `DOCKERFILE_TEMPLATES[javascript][react]` from templates.py. -/
def dockerfile_javascript_react : String :=
  "FROM node:18-alpine AS builder\n\nWORKDIR /app\n\n# Copy package files\nCOPY package*.json ./\n\n# Install dependencies\nRUN npm ci\n\n# Copy application code\nCOPY . .\n\n# Build the application\nRUN npm run build\n\n# Production stage\nFROM nginx:alpine AS runner\n\n# Copy built application\nCOPY --from=builder /app/build /usr/share/nginx/html\n\n# Copy nginx configuration\nCOPY nginx.conf /etc/nginx/nginx.conf\n\n# Expose port\nEXPOSE 8080\n\n# Health check\nHEALTHCHECK --interval=30s --timeout=10s --start-period=5s --retries=3 \\\n    CMD curl -f http://localhost:8080 || exit 1\n\n# Run nginx\nCMD [\"nginx\", \"-g\", \"daemon off;\"]\n"

/-- `DOCKERFILE_TEMPLATES[java][spring]` from templates.py. -/
def dockerfile_java_spring : String :=
  "FROM openjdk:17-jdk-alpine AS builder\n\nWORKDIR /app\n\n# Copy build files\nCOPY pom.xml .\nCOPY src ./src\n\n# Build the application\nRUN ./mvnw clean package -DskipTests\n\n# Production stage\nFROM openjdk:17-jre-alpine AS runner\n\nWORKDIR /app\n\n# Create non-root user\nRUN addgroup -g 1000 appuser && adduser -u 1000 -G appuser -s /bin/sh -D appuser\n\n# Copy built application\nCOPY --from=builder --chown=appuser:appuser /app/target/*.jar app.jar\n\nUSER appuser\n\n# Expose port\nEXPOSE 8080\n\n# Health check\nHEALTHCHECK --interval=30s --timeout=10s --start-period=5s --retries=3 \\\n    CMD curl -f http://localhost:8080/actuator/health || exit 1\n\n# Run the application\nCMD [\"java\", \"-jar\", \"app.jar\"]\n"

/-- `DOCKERFILE_TEMPLATES[go][gin]` from templates.py. -/
def dockerfile_go_gin : String :=
  "FROM golang:1.20-alpine AS builder\n\nWORKDIR /app\n\n# Copy go modules\nCOPY go.mod go.sum ./\n\n# Download dependencies\nRUN go mod download\n\n# Copy application code\nCOPY . .\n\n# Build the application\nRUN CGO_ENABLED=0 GOOS=linux go build -o main .\n\n# Production stage\nFROM alpine:latest AS runner\n\nWORKDIR /app\n\n# Install ca-certificates for HTTPS\nRUN apk --no-cache add ca-certificates\n\n# Create non-root user\nRUN addgroup -g 1000 appuser && adduser -u 1000 -G appuser -s /bin/sh -D appuser\n\n# Copy built application\nCOPY --from=builder --chown=appuser:appuser /app/main .\n\nUSER appuser\n\n# Expose port\nEXPOSE 8080\n\n# Health check\nHEALTHCHECK --interval=30s --timeout=10s --start-period=5s --retries=3 \\\n    CMD wget --no-verbose --tries=1 --spider http://localhost:8080/health || exit 1\n\n# Run the application\nCMD [\"./main\"]\n"

/-- The `DOCKERFILE_TEMPLATES` table of templates.py. -/
def DOCKERFILE_TEMPLATES : List (String × List (String × String)) :=
  [("python", [("flask", dockerfile_python_flask), ("django", dockerfile_python_django), ("generic", dockerfile_python_generic)]),
   ("javascript", [("express", dockerfile_javascript_express), ("next", dockerfile_javascript_next), ("react", dockerfile_javascript_react)]),
   ("java", [("spring", dockerfile_java_spring)]),
   ("go", [("gin", dockerfile_go_gin)])]

/-- `DOCKER_COMPOSE_TEMPLATES[python_postgresql]` from templates.py. -/
def compose_python_postgresql : String :=
  "version: \x273.8\x27\n\nservices:\n  app:\n    build: .\n    ports:\n      - \"8080:8080\"\n    depends_on:\n      - db\n    environment:\n      - DATABASE_URL=postgresql://user:password@db:5432/mydb\n      - FLASK_ENV=production\n    volumes:\n      - ./logs:/app/logs\n    restart: unless-stopped\n    healthcheck:\n      test: [\"CMD\", \"curl\", \"-f\", \"http://localhost:8080/health\"]\n      interval: 30s\n      timeout: 10s\n      retries: 3\n\n  db:\n    image: postgres:13\n    environment:\n      - POSTGRES_DB=mydb\n      - POSTGRES_USER=user\n      - POSTGRES_PASSWORD=password\n    volumes:\n      - postgres_data:/var/lib/postgresql/data\n    restart: unless-stopped\n    healthcheck:\n      test: [\"CMD-SHELL\", \"pg_isready -U user -d mydb\"]\n      interval: 10s\n      timeout: 5s\n      retries: 5\n\nvolumes:\n  postgres_data:\n"

/-- `DOCKER_COMPOSE_TEMPLATES[node_redis]` from templates.py. -/
def compose_node_redis : String :=
  "version: \x273.8\x27\n\nservices:\n  app:\n    build: .\n    ports:\n      - \"8080:8080\"\n    depends_on:\n      - redis\n    environment:\n      - REDIS_URL=redis://redis:6379\n      - NODE_ENV=production\n    volumes:\n      - ./logs:/app/logs\n    restart: unless-stopped\n    healthcheck:\n      test: [\"CMD\", \"curl\", \"-f\", \"http://localhost:8080/health\"]\n      interval: 30s\n      timeout: 10s\n      retries: 3\n\n  redis:\n    image: redis:7-alpine\n    restart: unless-stopped\n    healthcheck:\n      test: [\"CMD\", \"redis-cli\", \"ping\"]\n      interval: 10s\n      timeout: 5s\n      retries: 5\n\nvolumes:\n  logs:\n"

/-- `DOCKER_COMPOSE_TEMPLATES[generic]` from templates.py. -/
def compose_generic : String :=
  "version: \x273.8\x27\n\nservices:\n  app:\n    build: .\n    ports:\n      - \"8080:8080\"\n    environment:\n      - NODE_ENV=production\n    volumes:\n      - ./logs:/app/logs\n    restart: unless-stopped\n    healthcheck:\n      test: [\"CMD\", \"curl\", \"-f\", \"http://localhost:8080/health\"]\n      interval: 30s\n      timeout: 10s\n      retries: 3\n\nvolumes:\n  logs:\n"

/-- The `DOCKER_COMPOSE_TEMPLATES` table of templates.py. -/
def DOCKER_COMPOSE_TEMPLATES : List (String × String) :=
  [("python_postgresql", compose_python_postgresql), ("node_redis", compose_node_redis), ("generic", compose_generic)]

/-- A literal returned by `RepoContainerizer._generate_fallback_dockerfile`. -/
def fallback_dockerfile_python : String :=
  "FROM python:3.9-slim\n\nWORKDIR /app\n\n# Copy requirements and install dependencies\nCOPY requirements.txt .\nRUN pip install --no-cache-dir -r requirements.txt\n\n# Copy application code\nCOPY . .\n\n# Create non-root user\nRUN useradd -m -u 1000 appuser && chown -R appuser:appuser /app\nUSER appuser\n\n# Expose port\nEXPOSE 8080\n\n# Run the application\nCMD [\"python\", \"main.py\"]\n"

/-- A literal returned by `RepoContainerizer._generate_fallback_dockerfile`. -/
def fallback_dockerfile_javascript : String :=
  "FROM node:18-alpine\n\nWORKDIR /app\n\n# Copy package files\nCOPY package*.json ./\n\n# Install dependencies\nRUN npm ci --only=production\n\n# Copy application code\nCOPY . .\n\n# Create non-root user\nRUN addgroup -g 1000 appuser && adduser -u 1000 -G appuser -s /bin/sh -D appuser\nRUN chown -R appuser:appuser /app\nUSER appuser\n\n# Expose port\nEXPOSE 8080\n\n# Run the application\nCMD [\"node\", \"index.js\"]\n"

/-- A literal returned by `RepoContainerizer._generate_fallback_dockerfile`. -/
def fallback_dockerfile_other : String :=
  "FROM alpine:latest\n\nWORKDIR /app\n\n# Copy application code\nCOPY . .\n\n# Expose port\nEXPOSE 8080\n\n# Run the application\nCMD [\"echo\", \"Please configure the application start command\"]\n"

/-- `get_dockerfile_template` (templates.py lines 390-395): look up the
lower-cased language, then
`templates.get(framework.lower(), templates.get("generic", ""))`;
an unknown language yields the empty string. -/
def get_dockerfile_template (language framework : String) : String :=
  match DOCKERFILE_TEMPLATES.lookup (pyLower language) with
  | some templates =>
    (((templates.lookup (pyLower framework))).orElse
      (fun _ => templates.lookup "generic")).getD ""
  | none => ""

/-- `get_docker_compose_template` (templates.py lines 397-399). -/
def get_docker_compose_template (stack : String) : String :=
  (DOCKER_COMPOSE_TEMPLATES.lookup (pyLower stack)).getD compose_generic

/-- `RepoContainerizer._generate_fallback_dockerfile` (repo_containerizer.py
lines 565-626): a literal per language family. -/
def generate_fallback_dockerfile (language _framework : String) : String :=
  if pyLower language = "python" then fallback_dockerfile_python
  else if pyLower language = "javascript" then fallback_dockerfile_javascript
  else fallback_dockerfile_other

/-! ## `RepoContainerizer.analyze_with_llm` (repo_containerizer.py lines 217-358) -/

/-- The `RepositoryAnalysis` dataclass of repo_containerizer.py.  Python
dicts (`environment_vars`, `commands`) are insertion-ordered association
lists. -/
structure RepositoryAnalysis where
  primary_language : String
  framework : String
  package_manager : String
  database : String
  external_services : List String
  dependencies : List String
  build_tools : List String
  port : Nat
  environment_vars : List (String × String)
  commands : List (String × String)
  dockerfile_content : String
  docker_compose_content : String
  health_check : String

/-- The deterministic profile that `analyze_with_llm` pre-computes from the
rule-based detectors (lines 221-250) and returns whenever the LLM refinement
fails (the fallback `RepositoryAnalysis(...)` of lines 341-358). -/
def fallbackAnalysis (files : List String) (file_contents : List (String × String)) :
    RepositoryAnalysis :=
  let primaryLanguage := primary_language files
  let framework := detect_framework_from_files files file_contents
  let packageManager := detect_package_manager files
  let databases := detect_database_requirements file_contents
  let port := detect_port_from_files file_contents
  let envVars := detect_environment_variables file_contents
  let buildTools := detect_build_tools files file_contents
  let dependencies := extract_dependencies file_contents
  let dockerfileTemplate :=
    let t := get_dockerfile_template primaryLanguage framework
    if t = "" then get_dockerfile_template primaryLanguage "generic" else t
  let composeTemplate :=
    if databases ≠ [] then
      if databases.contains "postgresql" then get_docker_compose_template "python_postgresql"
      else if databases.contains "redis" then get_docker_compose_template "node_redis"
      else get_docker_compose_template "generic"
    else get_docker_compose_template "generic"
  let commands := generate_run_commands primaryLanguage framework packageManager
  let healthCheck := generate_health_check_command primaryLanguage framework port
  { primary_language := primaryLanguage
    framework := framework
    package_manager := packageManager
    database := databases.headD "none"
    external_services := if databases.length > 1 then databases.tail else []
    dependencies := dependencies
    build_tools := buildTools
    port := port
    environment_vars := envVars
    commands := commands
    dockerfile_content :=
      if dockerfileTemplate = "" then generate_fallback_dockerfile primaryLanguage framework
      else dockerfileTemplate
    docker_compose_content := composeTemplate
    health_check := healthCheck }

/-- The response clean-up of lines 324-331: strip, drop a leading markdown
fence ```` ```json ```` (7 characters), drop a trailing ```` ``` ````, strip
again. -/
def cleanResponse (s : String) : String :=
  let t := pyStripChars s.toList
  let t := if hasPrefixChars "```json".toList t then t.drop 7 else t
  let t := if hasPrefixChars "```".toList t.reverse then (t.reverse.drop 3).reverse else t
  String.mk (pyStripChars t)

/-- `analyze_with_llm`, refinement step (lines 313-358): the raw LLM response
text is cleaned and handed to `json.loads` + `RepositoryAnalysis(**data)` —
modelled by the `parse` argument, whose `none` stands for any exception
raised there (`json.JSONDecodeError` is re-raised at line 338, a wrong field
set raises `TypeError`).  A successful parse is returned AS-IS: every field
of the parsed response replaces the deterministic value, with no
language/framework consistency check.  Any failure falls back to the
deterministic profile; the surrounding `except Exception` means no exception
surfaces to the caller. -/
def analyze_with_llm (files : List String) (file_contents : List (String × String))
    (parse : String → Option RepositoryAnalysis) (rawResponse : String) :
    RepositoryAnalysis :=
  match parse (cleanResponse rawResponse) with
  | some refined => refined
  | none => fallbackAnalysis files file_contents

/-- A refinement response whose language/framework disagree with the
deterministic profile of `["app.py"]` (Python/flask) and whose
non-template fields also differ. -/
def refinedSample : RepositoryAnalysis :=
  { primary_language := "Go"
    framework := "gin"
    package_manager := "go"
    database := "none"
    external_services := []
    dependencies := ["gin-gonic"]
    build_tools := []
    port := 9999
    environment_vars := []
    commands := []
    dockerfile_content := "FROM scratch"
    docker_compose_content := ""
    health_check := "" }

/-- The manifest map of the C7 example: a `package.json` declaring react. -/
def reactPackageJson : List (String × String) :=
  [("package.json", "\x7b\"dependencies\":\x7b\"react\":\"18.0.0\"\x7d\x7d")]

/-! ## Helper lemmas -/

/-- The result of `argmaxBy` is the seed or one of the listed elements. -/
theorem argmaxBy_mem {α : Type} (score : α → Nat) (xs : List α) (x : α) :
    argmaxBy score x xs = x ∨ argmaxBy score x xs ∈ xs := by
  induction xs generalizing x with
  | nil => exact Or.inl rfl
  | cons y ys ih =>
    unfold argmaxBy at *
    simp only [List.foldl_cons]
    by_cases h : score y > score x
    · simp only [if_pos h]
      rcases ih y with h1 | h1
      · rw [h1]; exact Or.inr (List.mem_cons_self y ys)
      · exact Or.inr (List.mem_cons_of_mem y h1)
    · simp only [if_neg h]
      rcases ih x with h1 | h1
      · exact Or.inl h1
      · exact Or.inr (List.mem_cons_of_mem y h1)

/-- The result of `argmaxBy` scores at least as high as the seed and as
every listed element. -/
theorem argmaxBy_le {α : Type} (score : α → Nat) (xs : List α) (x : α) :
    score x ≤ score (argmaxBy score x xs) ∧
    ∀ y ∈ xs, score y ≤ score (argmaxBy score x xs) := by
  induction xs generalizing x with
  | nil => exact ⟨Nat.le_refl _, fun y hy => absurd hy (List.not_mem_nil y)⟩
  | cons z zs ih =>
    unfold argmaxBy at *
    simp only [List.foldl_cons]
    by_cases h : score z > score x
    · obtain ⟨h1, h2⟩ := ih z
      simp only [if_pos h]
      refine ⟨Nat.le_trans (Nat.le_of_lt h) h1, fun y hy => ?_⟩
      rcases List.mem_cons.mp hy with rfl | hy
      · exact h1
      · exact h2 y hy
    · obtain ⟨h1, h2⟩ := ih x
      simp only [if_neg h]
      refine ⟨h1, fun y hy => ?_⟩
      rcases List.mem_cons.mp hy with rfl | hy
      · exact Nat.le_trans (Nat.le_of_not_lt h) h1
      · exact h2 y hy

/-- Everything kept by `dedupAux` came from the input list. -/
theorem dedupAux_subset {l seen : List String} {y : String}
    (h : y ∈ dedupAux l seen) : y ∈ l := by
  induction l generalizing seen with
  | nil => simp [dedupAux] at h
  | cons x xs ih =>
    unfold dedupAux at h
    by_cases hx : x ∈ seen
    · simp only [if_pos hx] at h
      exact List.mem_cons_of_mem x (ih h)
    · simp only [if_neg hx] at h
      rcases List.mem_cons.mp h with rfl | h
      · exact List.mem_cons_self y xs
      · exact List.mem_cons_of_mem x (ih h)

/-- Every input element not yet seen is kept by `dedupAux`. -/
theorem mem_dedupAux {l : List String} {y : String}
    (h : y ∈ l) : ∀ seen : List String, y ∉ seen → y ∈ dedupAux l seen := by
  induction l with
  | nil => exact absurd h (List.not_mem_nil y)
  | cons x xs ih =>
    intro seen hseen
    unfold dedupAux
    by_cases hx : x ∈ seen
    · simp only [if_pos hx]
      rcases List.mem_cons.mp h with rfl | h
      · exact absurd hx hseen
      · exact ih h seen hseen
    · simp only [if_neg hx]
      rcases List.mem_cons.mp h with rfl | h
      · exact List.mem_cons_self y _
      · by_cases hyx : y = x
        · exact hyx ▸ List.mem_cons_self x _
        · exact List.mem_cons_of_mem x
            (ih h (x :: seen) (fun hc => (List.mem_cons.mp hc).elim hyx hseen))

/-- Everything in `dedupFirst l` is in `l` and vice versa. -/
theorem mem_dedupFirst {l : List String} {y : String} :
    y ∈ dedupFirst l ↔ y ∈ l :=
  ⟨dedupAux_subset, fun h => mem_dedupAux h [] (List.not_mem_nil y)⟩

/-- Any port produced by `detect_port_from_files` is the literal 8080
default, or the leftmost match of one of the seven patterns in one of the
contents, in which case the source's range guard was passed. -/
theorem detect_port_eq_default_or_match (file_contents : List (String × String)) :
    detect_port_from_files file_contents = 8080 ∨
    ∃ content ∈ file_contents.map Prod.snd, ∃ m ∈ port_patterns,
      scanFirst m content.toList = some (detect_port_from_files file_contents)
      ∧ 1000 ≤ detect_port_from_files file_contents
      ∧ detect_port_from_files file_contents ≤ 65535 := by
  unfold detect_port_from_files
  cases h : (file_contents.map Prod.snd).findSome? findPortInContent with
  | none => exact Or.inl rfl
  | some n =>
    simp only [Option.getD_some]
    obtain ⟨content, hmem, hc⟩ := List.exists_of_findSome?_eq_some h
    unfold findPortInContent at hc
    obtain ⟨m, hpat, hm⟩ := List.exists_of_findSome?_eq_some hc
    refine Or.inr ⟨content, hmem, m, hpat, ?_⟩
    cases hs : scanFirst m content.toList with
    | none => rw [hs] at hm; exact absurd hm (by simp)
    | some k =>
      rw [hs] at hm
      simp only at hm
      split at hm
      · rename_i hrange
        obtain rfl : k = n := Option.some.inj hm
        exact ⟨rfl, hrange.1, hrange.2⟩
      · exact absurd hm (by simp)

/-! ## The claims -/

/-- C10: for every manifest-content map, the value returned by
`detect_port_from_files` lies in 1000-65535: a numeric match outside that
range is skipped rather than returned, and the 8080 fallback is in range. -/
theorem detect_port_in_range (file_contents : List (String × String)) :
    1000 ≤ detect_port_from_files file_contents
    ∧ detect_port_from_files file_contents ≤ 65535 := by
  rcases detect_port_eq_default_or_match file_contents with h | ⟨_, _, _, _, _, h1, h2⟩
  · rw [h]; exact ⟨by decide, by decide⟩
  · exact ⟨h1, h2⟩

/-- C4 (amended): port detection scans contents and patterns in fixed order,
each pattern contributing only its leftmost match, which is skipped when out
of range; any returned non-default port is such an in-range leftmost match;
when no pattern produces an in-range first match the result is the constant
8080 regardless of any framework (the source's `default_ports` table is
never consulted).  Concretely, `app.listen(3000` yields 3000, empty input
yields 8080, and a content whose first `port` match is out of range falls
back to 8080 even though a later match is in range. -/
theorem detect_port_first_match_or_8080 :
    (∀ file_contents : List (String × String),
      detect_port_from_files file_contents = 8080 ∨
      ∃ content ∈ file_contents.map Prod.snd, ∃ m ∈ port_patterns,
        scanFirst m content.toList = some (detect_port_from_files file_contents)
        ∧ 1000 ≤ detect_port_from_files file_contents
        ∧ detect_port_from_files file_contents ≤ 65535)
    ∧ detect_port_from_files [("app.js", "app.listen(3000")] = 3000
    ∧ detect_port_from_files [] = 8080
    ∧ detect_port_from_files [("config.py", "port = 80 port = 3000")] = 8080 :=
  ⟨detect_port_eq_default_or_match, by decide, by decide, by decide⟩

/-- C4 witness: the general disjunct of the amended claim instantiated at a
concrete content, resolved on the match side. -/
theorem detect_port_first_match_or_8080_witness :
    detect_port_from_files [("app.js", "app.listen(3000")] = 8080 ∨
    ∃ content ∈ ([("app.js", "app.listen(3000")] : List (String × String)).map Prod.snd,
      ∃ m ∈ port_patterns,
        scanFirst m content.toList = some (detect_port_from_files [("app.js", "app.listen(3000")])
        ∧ 1000 ≤ detect_port_from_files [("app.js", "app.listen(3000")]
        ∧ detect_port_from_files [("app.js", "app.listen(3000")] ≤ 65535 :=
  detect_port_first_match_or_8080.1 [("app.js", "app.listen(3000")]

/-- C4 counterexample: with a flask manifest containing no port pattern the
code returns 8080, even though the source's own (dead) `default_ports` table
gives flask the default 5000 the claim promises. -/
theorem detect_port_no_framework_default_cx :
    detect_port_from_files [("requirements.txt", "flask")] = 8080
    ∧ default_ports.lookup "flask" = some 5000
    ∧ (8080 : Nat) ≠ 5000 :=
  ⟨by decide, by decide, by decide⟩

/-- C9: for every manifest-content map the env-var table contains the key
`PORT` with description `Application port` (the default used when `PORT` was
not detected, and also the table entry when it was), contains `DATABASE_URL`
whenever no detected variable starts with `DB_` or contains `DATABASE`, and
is never empty. -/
theorem detect_environment_variables_defaults (file_contents : List (String × String)) :
    ("PORT", "Application port") ∈ detect_environment_variables file_contents
    ∧ ((detected_vars file_contents).any isDbVar = false →
        ("DATABASE_URL", "Database connection URL") ∈ detect_environment_variables file_contents)
    ∧ detect_environment_variables file_contents ≠ [] := by
  unfold detect_environment_variables buildEnvVars
  set detected := detected_vars file_contents with hdet
  have hsub : ∀ p : String × String, p ∈ envWithDb detected →
      p ∈ (if "PORT" ∈ detected then envWithDb detected
           else envWithDb detected ++ [("PORT", "Application port")]) := by
    intro p hp
    split
    · exact hp
    · exact List.mem_append_left _ hp
  refine ⟨?_, ?_, ?_⟩
  · by_cases h : "PORT" ∈ detected
    · refine hsub _ ?_
      have hbase : ("PORT", "Application port") ∈ envBase detected :=
        List.mem_map.mpr ⟨"PORT", h, rfl⟩
      unfold envWithDb
      split
      · exact hbase
      · exact List.mem_append_left _ hbase
    · simp only [if_neg h]
      exact List.mem_append_right _ (List.mem_singleton.mpr rfl)
  · intro hdb
    refine hsub _ ?_
    unfold envWithDb
    rw [hdb]
    simp only [Bool.false_eq_true, if_false]
    exact List.mem_append_right _ (List.mem_singleton.mpr rfl)
  · have hbne : ∀ hmem : "PORT" ∈ detected, envWithDb detected ≠ [] := by
      intro hmem
      have hne : detected ≠ [] := by
        intro hc; rw [hc] at hmem; exact List.not_mem_nil _ hmem
      unfold envWithDb
      split
      · unfold envBase
        simpa using hne
      · intro hc
        rcases List.append_eq_nil.mp hc with ⟨_, h2⟩
        exact List.cons_ne_nil _ _ h2
    by_cases h : "PORT" ∈ detected
    · simp only [if_pos h]
      exact hbne h
    · simp only [if_neg h]
      intro hc
      rcases List.append_eq_nil.mp hc with ⟨_, h2⟩
      exact List.cons_ne_nil _ _ h2

/-- C9 witness: the defaults are present even for empty input. -/
theorem detect_environment_variables_defaults_witness :
    ("PORT", "Application port") ∈ detect_environment_variables []
    ∧ ("DATABASE_URL", "Database connection URL") ∈ detect_environment_variables [] :=
  ⟨(detect_environment_variables_defaults []).1,
   (detect_environment_variables_defaults []).2.1 (by decide)⟩

/-- The argmax-by-count property of `mostFrequent` on a nonempty pool. -/
theorem mostFrequent_spec (d : List String) (h : d ≠ []) :
    mostFrequent d ∈ d ∧ ∀ fw ∈ d, d.count fw ≤ d.count (mostFrequent d) := by
  unfold mostFrequent
  cases hd : dedupFirst d with
  | nil =>
    exfalso
    rcases hl : d with _ | ⟨a, t⟩
    · exact h hl
    · have : a ∈ dedupFirst d := mem_dedupFirst.mpr (hl ▸ List.mem_cons_self a t)
      rw [hd] at this
      exact List.not_mem_nil a this
  | cons x xs =>
    constructor
    · show argmaxBy (fun fw => d.count fw) x xs ∈ d
      have hx : argmaxBy (fun fw => d.count fw) x xs ∈ dedupFirst d := by
        rw [hd]
        rcases argmaxBy_mem (fun fw => d.count fw) xs x with h1 | h1
        · rw [h1]
          exact List.mem_cons_self x xs
        · exact List.mem_cons_of_mem x h1
      exact mem_dedupFirst.mp hx
    · intro fw hfw
      show d.count fw ≤ d.count (argmaxBy (fun fw => d.count fw) x xs)
      have hdd : fw ∈ x :: xs := by
        rw [← hd]
        exact mem_dedupFirst.mpr hfw
      obtain ⟨h1, h2⟩ := argmaxBy_le (fun fw => d.count fw) xs x
      rcases List.mem_cons.mp hdd with rfl | hfw'
      · exact h1
      · exact h2 fw hfw'

/-- C2 (amended): framework detection pools candidates from content sniffing
AND marker files into one list and returns a candidate of maximal
multiplicity in that pool (Python breaks ties in unspecified set order);
a marker file therefore does not take priority over content sniffing.  When
the pool is empty the result is `"generic"` (by definition of
`detect_framework_from_files`). -/
theorem detect_framework_is_most_frequent (files : List String)
    (file_contents : List (String × String))
    (h : detected_frameworks files file_contents ≠ []) :
    detect_framework_from_files files file_contents ∈ detected_frameworks files file_contents
    ∧ ∀ fw ∈ detected_frameworks files file_contents,
        (detected_frameworks files file_contents).count fw ≤
          (detected_frameworks files file_contents).count
            (detect_framework_from_files files file_contents) :=
  mostFrequent_spec (detected_frameworks files file_contents) h

/-- C2 witness: the most-frequent-candidate property at a concrete input. -/
theorem detect_framework_is_most_frequent_witness :
    detect_framework_from_files ["manage.py"]
        [("requirements.txt", "flask"), ("pyproject.toml", "flask")]
      ∈ detected_frameworks ["manage.py"]
        [("requirements.txt", "flask"), ("pyproject.toml", "flask")]
    ∧ ∀ fw ∈ detected_frameworks ["manage.py"]
        [("requirements.txt", "flask"), ("pyproject.toml", "flask")],
        (detected_frameworks ["manage.py"]
          [("requirements.txt", "flask"), ("pyproject.toml", "flask")]).count fw ≤
        (detected_frameworks ["manage.py"]
          [("requirements.txt", "flask"), ("pyproject.toml", "flask")]).count
          (detect_framework_from_files ["manage.py"]
            [("requirements.txt", "flask"), ("pyproject.toml", "flask")]) :=
  detect_framework_is_most_frequent ["manage.py"]
    [("requirements.txt", "flask"), ("pyproject.toml", "flask")] (by decide)

/-- C2 counterexample: the file list contains the `manage.py` marker, whose
table entry is django, yet two manifest contents sniffing as flask outvote
it and `detect_framework_from_files` returns flask — the marker does NOT
take priority. -/
theorem detect_framework_marker_outvoted_cx :
    detect_framework_from_files ["manage.py"]
      [("requirements.txt", "flask"), ("pyproject.toml", "flask")] = "flask"
    ∧ framework_files.lookup "manage.py" = some "django"
    ∧ ("flask" : String) ≠ "django" :=
  ⟨by decide, by decide, by decide⟩

/-- C3 (amended): `detect_package_manager` iterates the INPUT file list, not
a fixed lockfile order; the first file (in input order) present in the fixed
filename → manager table wins; with no hit the result is `"unknown"`.  As a
consequence the result depends on the input order when several known
manifest files are present. -/
theorem detect_package_manager_first_hit (pre post : List String) (f m : String)
    (h1 : ∀ g ∈ pre, package_managers.lookup g = none)
    (h2 : package_managers.lookup f = some m) :
    detect_package_manager (pre ++ f :: post) = m := by
  unfold detect_package_manager
  induction pre with
  | nil =>
    rw [List.nil_append, List.findSome?_cons, h2]
    rfl
  | cons a t ih =>
    rw [List.cons_append, List.findSome?_cons, h1 a (List.mem_cons_self a t)]
    exact ih (fun g hg => h1 g (List.mem_cons_of_mem a hg))

/-- C3 witness: `yarn.lock` wins over a later `package.json` when it comes
first among the recognised files. -/
theorem detect_package_manager_first_hit_witness :
    detect_package_manager ["README.md", "yarn.lock", "package.json"] = "yarn" :=
  detect_package_manager_first_hit ["README.md"] ["package.json"] "yarn.lock" "yarn"
    (by decide) (by decide)

/-- C3 counterexample: the same set of filenames in two orders yields two
different package managers, and `yarn.lock` loses to an earlier
`package.json` — detection is not order-independent and yarn does not win
regardless of order. -/
theorem detect_package_manager_order_dependent_cx :
    detect_package_manager ["package.json", "yarn.lock"] = "npm"
    ∧ detect_package_manager ["yarn.lock", "package.json"] = "yarn"
    ∧ List.Perm ["package.json", "yarn.lock"] ["yarn.lock", "package.json"]
    ∧ ("npm" : String) ≠ "yarn" :=
  ⟨by decide, by decide, List.Perm.swap "yarn.lock" "package.json" [], by decide⟩

/-- C5 (amended): `primary_language` is an argmax of the language histogram
— no language has a strictly larger count — but ties are broken by
first-appearance order of the language in the file list, not by a fixed
priority list, so the result can change under input reordering when two
languages have equal counts. -/
theorem primary_language_is_argmax (files : List String)
    (h : detect_language_from_files files ≠ []) :
    ∃ n, (primary_language files, n) ∈ detect_language_from_files files
      ∧ ∀ kv ∈ detect_language_from_files files, kv.2 ≤ n := by
  unfold primary_language
  cases hd : detect_language_from_files files with
  | nil => exact absurd hd h
  | cons kv rest =>
    refine ⟨(argmaxBy Prod.snd kv rest).2, ?_, ?_⟩
    · show argmaxBy Prod.snd kv rest ∈ kv :: rest
      rcases argmaxBy_mem Prod.snd rest kv with h1 | h1
      · rw [h1]
        exact List.mem_cons_self kv rest
      · exact List.mem_cons_of_mem kv h1
    · intro kv' hkv'
      obtain ⟨h1, h2⟩ := argmaxBy_le Prod.snd rest kv
      rcases List.mem_cons.mp hkv' with rfl | hkv'
      · exact h1
      · exact h2 kv' hkv'

/-- C5 witness: the argmax property at a concrete input. -/
theorem primary_language_is_argmax_witness :
    ∃ n, (primary_language ["a.py", "b.js"], n) ∈ detect_language_from_files ["a.py", "b.js"]
      ∧ ∀ kv ∈ detect_language_from_files ["a.py", "b.js"], kv.2 ≤ n :=
  primary_language_is_argmax ["a.py", "b.js"] (by decide)

/-- C5 counterexample: two permuted file lists with a count tie give two
different primary languages, so the computation is NOT deterministic under
input reordering (ties are broken by first appearance, not by a fixed
priority list). -/
theorem primary_language_order_dependent_cx :
    primary_language ["a.py", "b.js"] = "Python"
    ∧ primary_language ["b.js", "a.py"] = "JavaScript"
    ∧ List.Perm ["a.py", "b.js"] ["b.js", "a.py"]
    ∧ ("Python" : String) ≠ "JavaScript" :=
  ⟨by decide, by decide, List.Perm.swap "b.js" "a.py" [], by decide⟩

/-- C6: whenever parsing of the (fence-stripped) refinement response fails —
`parse` returning `none` models the `json.JSONDecodeError` or dataclass
`TypeError` raised there — `analyze_with_llm` returns exactly the
deterministic profile assembled from the rule-based detectors; the
surrounding `except Exception` handler means no exception surfaces. -/
theorem analyze_with_llm_parse_failure (files : List String)
    (file_contents : List (String × String))
    (parse : String → Option RepositoryAnalysis) (raw : String)
    (h : parse (cleanResponse raw) = none) :
    analyze_with_llm files file_contents parse raw = fallbackAnalysis files file_contents := by
  unfold analyze_with_llm
  rw [h]

/-- C6 witness: a malformed response at a concrete input falls back to the
deterministic profile. -/
theorem analyze_with_llm_parse_failure_witness :
    analyze_with_llm ["app.py"] [] (fun _ => none) "this is not json" =
      fallbackAnalysis ["app.py"] [] :=
  analyze_with_llm_parse_failure ["app.py"] [] (fun _ => none) "this is not json" rfl

/-- C1 (amended): when the refinement response parses (after fence
stripping), the parsed `RepositoryAnalysis` replaces the deterministic
profile IN FULL — every field, not only the template fields, and with no
`primary_language`/`framework` consistency check; only a parse failure
returns the deterministic profile unchanged. -/
theorem analyze_with_llm_accepts_parsed (files : List String)
    (file_contents : List (String × String))
    (parse : String → Option RepositoryAnalysis) (raw : String)
    (refined : RepositoryAnalysis)
    (h : parse (cleanResponse raw) = some refined) :
    analyze_with_llm files file_contents parse raw = refined := by
  unfold analyze_with_llm
  rw [h]

/-- C1 witness: a concrete parsed response is returned as-is. -/
theorem analyze_with_llm_accepts_parsed_witness :
    analyze_with_llm ["app.py"] [] (fun _ => some refinedSample) "resp" = refinedSample :=
  analyze_with_llm_accepts_parsed ["app.py"] [] (fun _ => some refinedSample) "resp"
    refinedSample rfl

/-- C1 counterexample: the deterministic profile of `["app.py"]` has
`primary_language = "Python"` and `port = 8080`; a parsed refinement with
`primary_language = "Go"` is NOT discarded — it is returned, and its
non-template `port` field (9999) replaces the deterministic 8080. -/
theorem analyze_with_llm_mismatch_accepted_cx :
    (fallbackAnalysis ["app.py"] []).primary_language = "Python"
    ∧ refinedSample.primary_language = "Go"
    ∧ analyze_with_llm ["app.py"] [] (fun _ => some refinedSample) "resp" = refinedSample
    ∧ (analyze_with_llm ["app.py"] [] (fun _ => some refinedSample) "resp").port = 9999
    ∧ (fallbackAnalysis ["app.py"] []).port = 8080 :=
  ⟨by decide, rfl, rfl, rfl, by decide⟩

/-- C7 (amended): on the single file `package.json` with the react manifest,
the deterministic analysis yields `primary_language = "JSON"` (the `.json`
extension maps to the language bucket JSON, not JavaScript),
`framework = "react"` and `package_manager = "npm"`. -/
theorem react_package_json_analysis :
    (fallbackAnalysis ["package.json"] reactPackageJson).primary_language = "JSON"
    ∧ (fallbackAnalysis ["package.json"] reactPackageJson).framework = "react"
    ∧ (fallbackAnalysis ["package.json"] reactPackageJson).package_manager = "npm" :=
  ⟨by decide, by decide, by decide⟩

/-- C7 counterexample: the claimed `primary_language = "JavaScript"` is
false — the extension table sends `.json` to `"JSON"`. -/
theorem react_package_json_language_cx :
    (fallbackAnalysis ["package.json"] reactPackageJson).primary_language = "JSON"
    ∧ ("JSON" : String) ≠ "JavaScript" :=
  ⟨by decide, by decide⟩

/-- C8 (amended): the (python, flask) Dockerfile template contains
`EXPOSE 8080` — every bundled template hardcodes port 8080, none exposes a
framework-specific port — and a CMD invoking the flask entrypoint
`app.py`; the (javascript, react) template contains two FROM stages, a
node builder and an nginx runtime. -/
theorem dockerfile_templates_content :
    strContains (get_dockerfile_template "python" "flask") "EXPOSE 8080" = true
    ∧ strContains (get_dockerfile_template "python" "flask") "CMD [\"python\", \"app.py\"]" = true
    ∧ strContains (get_dockerfile_template "javascript" "react") "FROM node:18-alpine AS builder" = true
    ∧ strContains (get_dockerfile_template "javascript" "react") "FROM nginx:alpine AS runner" = true :=
  ⟨by decide, by decide, by decide, by decide⟩

/-- C8 counterexample: the (python, flask) template does NOT contain the
claimed line `EXPOSE 5000`. -/
theorem dockerfile_flask_no_expose_5000_cx :
    strContains (get_dockerfile_template "python" "flask") "EXPOSE 5000" = false := by
  decide

end DevO
